import Mathlib

/-!
Verification of the event-management service (Django app `event`).

The development shallowly embeds the code of `src/event/` in Lean:
datetimes become UTC instants in whole seconds (`Int`), the relational
store becomes an explicit `Store` value threaded through each operation,
and each HTTP handler becomes a function from a store and a request to a
response value paired with the successor store.  Behaviour of external
collaborators (the pytz timezone database, Django REST Framework field
and object validation, the database uniqueness constraints) is modelled
at the level the handlers in `views.py` rely on, and each such point is
documented on the definition that embeds it.
-/

/-- A point in time, measured in whole seconds (the display path of the
code formats with `%Y-%m-%d %H:%M:%S`, i.e. seconds precision).  A naive
wall-clock datetime is likewise a second count of its wall-clock reading. -/
abbrev Instant := Int

/-- A named timezone as pytz exposes it to `utils.py`: a standard UTC
offset `std`, a daylight-saving offset `dst`, and one daylight-saving
interval `[dstStartUtc, dstEndUtc)` given in UTC.  Offsets are in
seconds, added to UTC to obtain local wall-clock time.  (pytz zones have
a list of such intervals; one interval already exhibits every gap and
overlap phenomenon the conversion code can meet.) -/
structure SimpleTz where
  std : Int
  dst : Int
  dstStartUtc : Int
  dstEndUtc : Int
deriving Repr, DecidableEq

/-- The UTC offset a zone applies at a given UTC instant: this is what
`dt.astimezone(tz)` uses in `utils.convert_to_utc` (step 3) and in
`modify_datetime_format.convert_datetime`. -/
def utcOffset (tz : SimpleTz) (u : Instant) : Int :=
  if tz.dstStartUtc ≤ u ∧ u < tz.dstEndUtc then tz.dst else tz.std

/-- The offset `tz.localize(dt)` (pytz, default `is_dst=False`) assigns
to a naive wall-clock time, as called by `utils.localize_input` and
`utils.convert_to_utc` (step 2): the unique offset consistent with the
wall-clock value when there is one; for an ambiguous wall-clock time
(both offsets consistent) the standard offset, because `is_dst=False`
prefers the non-DST reading; for a nonexistent wall-clock time (neither
consistent, the spring-forward gap) also the standard offset. -/
def pytzLocalize (tz : SimpleTz) (x : Instant) : Int :=
  if utcOffset tz (x - tz.std) = tz.std then tz.std
  else if utcOffset tz (x - tz.dst) = tz.dst then tz.dst
  else tz.std

/-- `utils.convert_to_utc` on a naive datetime (the write path): localize
the wall-clock value in the caller timezone, then convert to UTC.
`utils.localize_input` performs the same localize-then-astimezone(UTC)
steps on the `start_time`/`end_time` fields before the serializer runs. -/
def convert_to_utc (x : Instant) (tz : SimpleTz) : Instant :=
  x - pytzLocalize tz x

/-- `modify_datetime_format.convert_datetime` (the display path): convert
a stored UTC instant to the user zone and format it at seconds
precision.  At whole-second instants the `strftime` formatting is the
identity, so the result is the local wall-clock second count. -/
def convert_datetime (u : Instant) (tz : SimpleTz) : Instant :=
  u + utcOffset tz u

/-- A naive wall-clock value is a valid local datetime of a zone when it
actually occurs on that wall clock: some offset of the zone is
consistent with it.  Spring-forward gap times are exactly the invalid
ones. -/
def validLocal (tz : SimpleTz) (x : Instant) : Prop :=
  utcOffset tz (x - tz.std) = tz.std ∨ utcOffset tz (x - tz.dst) = tz.dst

instance (tz : SimpleTz) (x : Instant) : Decidable (validLocal tz x) := by
  unfold validLocal; infer_instance

/-- The pytz zone table as `pytz.timezone` exposes it to `utils.py`:
a finite map from zone names to zones; an unlisted name raises
`UnknownTimeZoneError`, modelled as `none`.  The table lists the zones
exercised by the repository tests plus a DST-observing zone. -/
def tzTable : List (String × SimpleTz) :=
  [("UTC", ⟨0, 0, 0, 0⟩),
   ("Asia/Kolkata", ⟨19800, 19800, 0, 0⟩),
   ("America/New_York", ⟨-18000, -14400, 1741503600, 1762066800⟩)]

/-- `pytz.timezone`: look a zone name up in the zone table. -/
def pytz_timezone (name : String) : Option SimpleTz :=
  (tzTable.find? (fun p => p.1 == name)).map (fun p => p.2)

/-- The zone object used by `modify_datetime_format`: `pytz.timezone`
inside `try`, falling back to UTC on `UnknownTimeZoneError`. -/
def displayTz (name : String) : SimpleTz :=
  (pytz_timezone name).getD ⟨0, 0, 0, 0⟩

/-- The display conversion of one stored UTC instant under a (possibly
unrecognized) zone name, as `modify_datetime_format` applies it to each
datetime field.  Total: the zone lookup is the only fallible step and it
is guarded by the fallback. -/
def displayInstant (u : Instant) (name : String) : Instant :=
  convert_datetime u (displayTz name)

/-- C4: round-trip of timezone conversion.  For every valid local
datetime `x` (one that occurs on the wall clock of `tz`), storing via
`convert_to_utc` and re-displaying via `convert_datetime` in the same
zone returns `x` at seconds precision. -/
theorem C4_roundtrip_timezone (tz : SimpleTz) (x : Instant)
    (h : validLocal tz x) :
    convert_datetime (convert_to_utc x tz) tz = x := by
  unfold convert_datetime convert_to_utc pytzLocalize
  by_cases h1 : utcOffset tz (x - tz.std) = tz.std
  · rw [if_pos h1, h1]
    exact Int.sub_add_cancel x tz.std
  · rcases h with h | h2
    · exact absurd h h1
    · rw [if_neg h1, if_pos h2, h2]
      exact Int.sub_add_cancel x tz.dst

/-- Witness for C4 at a concrete zone and instant: New York standard
offset -18000, DST offset -14400, with `x` outside the gap. -/
theorem C4_roundtrip_timezone_witness :
    convert_datetime
      (convert_to_utc 1000000 ⟨-18000, -14400, 1741503600, 1762066800⟩)
      ⟨-18000, -14400, 1741503600, 1762066800⟩ = 1000000 :=
  C4_roundtrip_timezone ⟨-18000, -14400, 1741503600, 1762066800⟩ 1000000
    (by decide)

/-- A row of the `events` table (`models.Event`), with both instants
already normalized to UTC as the write path stores them.  `created_at`
and `updated_at` are server-assigned and never read by the handlers, so
they are omitted. -/
structure Event where
  id : Nat
  name : String
  location : String
  start_time : Instant
  end_time : Instant
  max_capacity : Nat
deriving Repr, DecidableEq

/-- A row of the `attendees` table (`models.Attendee`): foreign key
`event_id` to `events.id`, plus name and email. -/
structure Attendee where
  id : Nat
  event_id : Nat
  name : String
  email : String
deriving Repr, DecidableEq

/-- The persistent store: the two tables.  Rows are listed in insertion
order, which is also ascending id order for autoincremented ids. -/
structure Store where
  events : List Event
  attendees : List Attendee
deriving Repr, DecidableEq

/-- `Event.objects.get(id=...)`: the row with the given id, or `none`
(the ORM raises `DoesNotExist`, which each call site handles — or fails
to handle — on its own). -/
def findEvent (s : Store) (eid : Nat) : Option Event :=
  s.events.find? (fun e => e.id == eid)

/-- `event.attendees.count()`: number of attendee rows whose foreign key
references the event. -/
def attendeeCount (s : Store) (eid : Nat) : Nat :=
  (s.attendees.filter (fun a => a.event_id == eid)).length

/-- The autoincrement id the database assigns to the next attendee row. -/
def nextAttendeeId (s : Store) : Nat :=
  s.attendees.foldl (fun m a => max m a.id) 0 + 1

/-- The autoincrement id the database assigns to the next event row. -/
def nextEventId (s : Store) : Nat :=
  s.events.foldl (fun m e => max m e.id) 0 + 1

/-- Message of the capacity branch of `AttendeeModelViewset.create`. -/
def capacityMsg : String :=
  "Sorry, event is full. New attendees can not be registered."

/-- Message of the duplicate-registration branch of
`AttendeeModelViewset.create`. -/
def duplicateMsg : String :=
  "Attendee already registered for this event. Please try with the different email."

/-- Message of the invalid-serializer branch of
`AttendeeModelViewset.create`. -/
def incorrectDataMsg : String :=
  "Incorrect data. Please check all the data fields and try again."

/-- Outcome of a registration request, i.e. the response
`AttendeeModelViewset.create` renders — or the exception that escapes
it. -/
inductive RegisterResult where
  /-- 201: attendee saved and returned. -/
  | created (a : Attendee)
  /-- 400 with the given response message (capacity, duplicate, or
  invalid input). -/
  | badRequest (msg : String)
  /-- `Event.objects.get` raised `Event.DoesNotExist` and no handler in
  the view catches it: the exception escapes the view (the framework
  turns an uncaught non-API exception into a 500). -/
  | unhandledDoesNotExist
deriving Repr, DecidableEq

/-- HTTP status the caller observes for each outcome. -/
def RegisterResult.statusCode : RegisterResult → Nat
  | .created _ => 201
  | .badRequest _ => 400
  | .unhandledDoesNotExist => 500

/-- `AttendeeSerializer.is_valid()`: `name` is a required non-blank
CharField and `email` a required EmailField.  The exact email grammar is
framework code (DRF `EmailValidator`); it is embedded as non-blank text
containing an at sign, which is all the claims rely on (they only need
validation to sit between the capacity check and the insert). -/
def attendeeInputValid (name email : String) : Bool :=
  name != "" && email != "" && email.data.any (fun c => c == '@')

/-- `AttendeeModelViewset.create` (the register operation), translated
branch for branch from `views.py`:

1. `Event.objects.get(id=event_id)` — raises `DoesNotExist` when the id
   is absent; the view has no handler for it, so the request dies there
   (the dead `else` branch of `if event:` is unreachable because a bound
   model instance is always truthy).
2. capacity check `event.attendees.count() >= event.max_capacity` —
   400 with `capacityMsg`, nothing written.
3. serializer validation — 400 with `incorrectDataMsg`, nothing written.
4. `serializer.save(event=event)` — the database uniqueness constraint
   `unique_together = (event, email)` makes the insert raise when a row
   with the same pair exists; the `except` branch renders 400 with
   `duplicateMsg` and the transaction leaves no partial state.  The
   insert is embedded as a conditional append guarded by the pair test,
   which is exactly the constraint semantics under sequential execution.
5. success — 201, the new row appended. -/
def register (s : Store) (eid : Nat) (name email : String) :
    RegisterResult × Store :=
  match findEvent s eid with
  | none => (.unhandledDoesNotExist, s)
  | some ev =>
    if ev.max_capacity ≤ attendeeCount s eid then
      (.badRequest capacityMsg, s)
    else if ¬ attendeeInputValid name email then
      (.badRequest incorrectDataMsg, s)
    else if s.attendees.any (fun a => a.event_id == eid && a.email == email) then
      (.badRequest duplicateMsg, s)
    else
      let a : Attendee := ⟨nextAttendeeId s, eid, name, email⟩
      (.created a, ⟨s.events, s.attendees ++ [a]⟩)

/-- Sequential execution of a batch of register requests
`(event id, name, email)`, each one running against the store the
previous one left. -/
def runRegisters (s : Store) (ops : List (Nat × String × String)) : Store :=
  ops.foldl (fun st op => (register st op.1 op.2.1 op.2.2).2) s

/-- No two attendee rows share the same `(event, email)` pair — the
uniqueness invariant of the `unique_together` constraint. -/
def pairUnique (s : Store) : Prop :=
  s.attendees.Pairwise (fun a b => ¬ (a.event_id = b.event_id ∧ a.email = b.email))

instance (s : Store) : Decidable (pairUnique s) := by
  unfold pairUnique; exact List.instDecidablePairwise _

/-- The register operation never touches the `events` table. -/
theorem register_events_eq (s : Store) (eid : Nat) (n em : String) :
    ((register s eid n em).2).events = s.events := by
  unfold register
  cases findEvent s eid with
  | none => rfl
  | some ev =>
    dsimp only
    split_ifs <;> rfl

/-- Hence event lookups are unchanged by a registration. -/
theorem findEvent_register (s : Store) (eid : Nat) (n em : String) (tid : Nat) :
    findEvent ((register s eid n em).2) tid = findEvent s tid := by
  unfold findEvent
  rw [register_events_eq]

/-- One registration step keeps the attendee count of an event at or
below its capacity: every branch but the final insert leaves the store
unchanged, and the insert is guarded by the capacity check. -/
theorem attendeeCount_register_le (s : Store) (eid : Nat) (n em : String)
    (tid : Nat) (ev : Event) (hfind : findEvent s tid = some ev)
    (hle : attendeeCount s tid ≤ ev.max_capacity) :
    attendeeCount ((register s eid n em).2) tid ≤ ev.max_capacity := by
  unfold register
  cases hf : findEvent s eid with
  | none => exact hle
  | some ev2 =>
    dsimp only
    by_cases h1 : ev2.max_capacity ≤ attendeeCount s eid
    · rw [if_pos h1]; exact hle
    · rw [if_neg h1]
      by_cases h2 : attendeeInputValid n em = true
      · rw [if_neg (not_not_intro h2)]
        by_cases h3 : (s.attendees.any fun a => a.event_id == eid && a.email == em) = true
        · rw [if_pos h3]; exact hle
        · rw [if_neg h3]
          show attendeeCount
              ⟨s.events, s.attendees ++ [⟨nextAttendeeId s, eid, n, em⟩]⟩ tid
              ≤ ev.max_capacity
          by_cases heq : eid = tid
          · subst heq
            rw [hf] at hfind
            have hev : ev2 = ev := Option.some.inj hfind
            subst hev
            have hlt : attendeeCount s eid < ev2.max_capacity := Nat.lt_of_not_le h1
            unfold attendeeCount at hlt ⊢
            simp only [List.filter_append, List.length_append, List.filter_cons,
              List.filter_nil, beq_self_eq_true, if_pos, List.length_cons,
              List.length_nil]
            omega
          · unfold attendeeCount at hle ⊢
            have hne : (eid == tid) = false := beq_eq_false_iff_ne.mpr heq
            simp only [List.filter_append, List.length_append, List.filter_cons,
              List.filter_nil, hne, Bool.false_eq_true, not_false_eq_true,
              if_neg, List.length_nil, Nat.add_zero]
            exact hle
      · rw [if_pos h2]; exact hle

/-- Sequential batches of registrations keep the attendee count of an
event at or below its capacity. -/
theorem runRegisters_count_le (ops : List (Nat × String × String))
    (s : Store) (tid : Nat) (ev : Event) (hfind : findEvent s tid = some ev)
    (hle : attendeeCount s tid ≤ ev.max_capacity) :
    attendeeCount (runRegisters s ops) tid ≤ ev.max_capacity := by
  induction ops generalizing s with
  | nil => exact hle
  | cons op ops ih =>
    simp only [runRegisters, List.foldl_cons]
    have hfind2 : findEvent ((register s op.1 op.2.1 op.2.2).2) tid = some ev := by
      rw [findEvent_register]; exact hfind
    have hle2 := attendeeCount_register_le s op.1 op.2.1 op.2.2 tid ev hfind hle
    exact ih _ hfind2 hle2

/-- C1: capacity invariant of registration.  If the event exists and its
attendee count has reached `max_capacity`, the register operation
answers 400 with the message containing "event is full" and writes
nothing; and, starting from any store where the count is at most the
capacity, no sequential batch of register operations ever pushes the
count above the capacity. -/
theorem C1_capacity_invariant :
    (∀ s eid ev name email, findEvent s eid = some ev →
        ev.max_capacity ≤ attendeeCount s eid →
        register s eid name email = (.badRequest capacityMsg, s)) ∧
    (∃ p q, capacityMsg = p ++ "event is full" ++ q) ∧
    (RegisterResult.badRequest capacityMsg).statusCode = 400 ∧
    (∀ s ops tid ev, findEvent s tid = some ev →
        attendeeCount s tid ≤ ev.max_capacity →
        attendeeCount (runRegisters s ops) tid ≤ ev.max_capacity) := by
  refine ⟨?_, ⟨"Sorry, ", ". New attendees can not be registered.", by decide⟩, rfl, ?_⟩
  · intro s eid ev name email hfind hcap
    unfold register
    rw [hfind]
    dsimp only
    rw [if_pos hcap]
  · intro s ops tid ev hfind hle
    exact runRegisters_count_le ops s tid ev hfind hle

/-- Witness for C1 at a concrete capacity-2 event: with two attendees
registered, a third registration is refused with the capacity message
and the store is unchanged; and a batch of three registrations against
an initially empty ledger leaves at most two attendee rows. -/
theorem C1_capacity_invariant_witness :
    register
      ⟨[⟨1, "PyCon", "Pune", 100, 200, 2⟩],
       [⟨1, 1, "John Doe", "john@example.com"⟩,
        ⟨2, 1, "Jane Smith", "jane@example.com"⟩]⟩
      1 "Third" "third@example.com"
      = (.badRequest capacityMsg,
         ⟨[⟨1, "PyCon", "Pune", 100, 200, 2⟩],
          [⟨1, 1, "John Doe", "john@example.com"⟩,
           ⟨2, 1, "Jane Smith", "jane@example.com"⟩]⟩) ∧
    attendeeCount
      (runRegisters ⟨[⟨1, "PyCon", "Pune", 100, 200, 2⟩], []⟩
        [(1, "John Doe", "john@example.com"),
         (1, "Jane Smith", "jane@example.com"),
         (1, "Third", "third@example.com")]) 1 ≤ 2 :=
  ⟨C1_capacity_invariant.1
      ⟨[⟨1, "PyCon", "Pune", 100, 200, 2⟩],
       [⟨1, 1, "John Doe", "john@example.com"⟩,
        ⟨2, 1, "Jane Smith", "jane@example.com"⟩]⟩
      1 ⟨1, "PyCon", "Pune", 100, 200, 2⟩ "Third" "third@example.com"
      (by decide) (by decide),
   C1_capacity_invariant.2.2.2
      ⟨[⟨1, "PyCon", "Pune", 100, 200, 2⟩], []⟩
      [(1, "John Doe", "john@example.com"),
       (1, "Jane Smith", "jane@example.com"),
       (1, "Third", "third@example.com")]
      1 ⟨1, "PyCon", "Pune", 100, 200, 2⟩ (by decide) (by decide)⟩

/-- C2, counterexample to the claim as stated.  Against a capacity-1
event whose single attendee is `john@example.com`, a second register
call with the same email hits the capacity branch first: it answers
with the capacity message itself, not a message distinct from the
capacity error, although an attendee row with this `(event, email)`
pair already exists. -/
theorem C2_counterexample :
    ((⟨[⟨1, "PyCon", "Pune", 100, 200, 1⟩],
       [⟨1, 1, "John Doe", "john@example.com"⟩]⟩ : Store).attendees.any
        (fun a => a.event_id == 1 && a.email == "john@example.com")) = true ∧
    register
      ⟨[⟨1, "PyCon", "Pune", 100, 200, 1⟩],
       [⟨1, 1, "John Doe", "john@example.com"⟩]⟩
      1 "John Doe" "john@example.com"
      = (.badRequest capacityMsg,
         ⟨[⟨1, "PyCon", "Pune", 100, 200, 1⟩],
          [⟨1, 1, "John Doe", "john@example.com"⟩]⟩) := by
  constructor
  · decide
  · decide

/-- C2 as amended: when the event is below capacity and the submitted
fields pass validation, a register call whose `(event, email)` pair
already has a row answers 400 with the duplicate message — a message
distinct from the capacity one — and leaves the store unchanged; and
in every case registration preserves uniqueness of `(event, email)`
pairs. -/
theorem C2_duplicate_registration :
    (∀ s eid ev name email, findEvent s eid = some ev →
        attendeeCount s eid < ev.max_capacity →
        attendeeInputValid name email = true →
        (s.attendees.any fun a => a.event_id == eid && a.email == email) = true →
        register s eid name email = (.badRequest duplicateMsg, s)) ∧
    duplicateMsg ≠ capacityMsg ∧
    (RegisterResult.badRequest duplicateMsg).statusCode = 400 ∧
    (∀ s eid name email, pairUnique s → pairUnique (register s eid name email).2) := by
  refine ⟨?_, by decide, rfl, ?_⟩
  · intro s eid ev name email hfind hlt hvalid hdup
    unfold register
    rw [hfind]
    dsimp only
    rw [if_neg (Nat.not_le.mpr hlt), if_neg (not_not_intro hvalid), if_pos hdup]
  · intro s eid name email hu
    unfold register
    cases hf : findEvent s eid with
    | none => exact hu
    | some ev2 =>
      dsimp only
      by_cases h1 : ev2.max_capacity ≤ attendeeCount s eid
      · rw [if_pos h1]; exact hu
      · rw [if_neg h1]
        by_cases h2 : attendeeInputValid name email = true
        · rw [if_neg (not_not_intro h2)]
          by_cases h3 : (s.attendees.any fun a => a.event_id == eid && a.email == email) = true
          · rw [if_pos h3]; exact hu
          · rw [if_neg h3]
            show pairUnique ⟨s.events, s.attendees ++ [⟨nextAttendeeId s, eid, name, email⟩]⟩
            have hnone := List.any_eq_false.mp (Bool.eq_false_iff.mpr h3)
            unfold pairUnique at hu ⊢
            rw [List.pairwise_append]
            refine ⟨hu, List.pairwise_singleton _ _, ?_⟩
            intro a ha b hb
            have hbeq : b = ⟨nextAttendeeId s, eid, name, email⟩ := List.mem_singleton.mp hb
            subst hbeq
            intro hpair
            have := hnone a ha
            simp only [Bool.and_eq_true, beq_iff_eq] at this
            exact this ⟨hpair.1, hpair.2⟩
        · rw [if_pos h2]; exact hu

/-- Witness for C2 as amended: a capacity-2 event with one registered
attendee refuses a second registration of the same email with the
duplicate message and an unchanged store. -/
theorem C2_duplicate_registration_witness :
    register
      ⟨[⟨1, "PyCon", "Pune", 100, 200, 2⟩],
       [⟨1, 1, "John Doe", "john@example.com"⟩]⟩
      1 "John" "john@example.com"
      = (.badRequest duplicateMsg,
         ⟨[⟨1, "PyCon", "Pune", 100, 200, 2⟩],
          [⟨1, 1, "John Doe", "john@example.com"⟩]⟩) :=
  C2_duplicate_registration.1
    ⟨[⟨1, "PyCon", "Pune", 100, 200, 2⟩],
     [⟨1, 1, "John Doe", "john@example.com"⟩]⟩
    1 ⟨1, "PyCon", "Pune", 100, 200, 2⟩ "John" "john@example.com"
    (by decide) (by decide) (by decide) (by decide)

/-- C3: registering against an event id that is not in the store.  The
view calls `Event.objects.get` with no handler for `DoesNotExist` (its
`else` branch guarding the 400 "Event does not exist" response is
unreachable, as the comment in the source itself notes), so the request
dies with the unhandled exception — a 500, not the 4xx the claim and the
dead branch intend — while still writing no attendee row. -/
theorem C3_missing_event_unhandled :
    register ⟨[], []⟩ 999 "John Doe" "john@example.com"
      = (.unhandledDoesNotExist, ⟨[], []⟩) ∧
    RegisterResult.unhandledDoesNotExist.statusCode = 500 := by
  constructor
  · decide
  · rfl

/-- The body of a create/update event request: `start_time` and
`end_time` as naive local wall-clock values (second counts), the rest as
sent.  Parsing of the raw body is external framework work; the claims
start at the parsed values. -/
structure EventInput where
  name : String
  location : String
  start_time : Instant
  end_time : Instant
  max_capacity : Nat
deriving Repr, DecidableEq

/-- Outcome of an event create or update request as
`EventModelViewSet.create`/`update` render it — or the exception that
escapes the view. -/
inductive CreateResult where
  /-- 201: event stored and returned. -/
  | created (e : Event)
  /-- 400: `serializers.ValidationError` caught, with the error detail
  keyed by field name (`non_field_errors` for object-level errors, the
  DRF convention for errors raised in `Serializer.validate`). -/
  | validationError (fields : List String)
  /-- 500: the blanket `except Exception` branch rendered its generic
  response with this message. -/
  | serverError (msg : String)
  /-- The named exception escaped the view uncaught (the framework turns
  it into a 500 with no envelope). -/
  | unhandledException (exc : String)
deriving Repr, DecidableEq

/-- HTTP status the caller observes for each outcome. -/
def CreateResult.statusCode : CreateResult → Nat
  | .created _ => 201
  | .validationError _ => 400
  | .serverError _ => 500
  | .unhandledException _ => 500

/-- Field-level validation of `EventSerializer` on the already
normalized UTC values: `validate_start_time` demands a start strictly
after now (reported under the `start_time` key), and the `unique=True`
constraint on `Event.name` is enforced by the serializer's
`UniqueValidator` (reported under the `name` key).  DRF collects all
field errors before object-level validation runs. -/
def eventFieldErrors (s : Store) (now startUtc : Instant) (name : String) :
    List String :=
  (if startUtc ≤ now then ["start_time"] else []) ++
  (if s.events.any (fun e => e.name == name) then ["name"] else [])

/-- `EventModelViewSet.create`, translated branch for branch from
`views.py`:

1. `localize_input(request.data, timezone_str)` runs before the `try`
   block.  It calls `pytz.timezone(timezone_str)` first, so an
   unrecognized zone raises `UnknownTimeZoneError` with no handler in
   the view: the request dies there, before any validation, and nothing
   is stored.  A recognized zone converts both datetime fields to UTC
   (localize, then astimezone UTC — `convert_to_utc` on each naive
   value).
2. `serializer.is_valid(raise_exception=True)`: field errors first
   (`eventFieldErrors`), then the object-level `validate` comparing
   `end_time <= start_time`, whose error DRF files under
   `non_field_errors`.  A `ValidationError` is caught and rendered as a
   400.
3. The later `convert_to_utc` calls on `validated_data` re-convert
   already-UTC values and are the identity on them (the values carry
   offset information, so localize is skipped).
4. `Event.objects.create(**validated_data)` appends the row; 201. -/
def createEvent (s : Store) (tzName : String) (inp : EventInput)
    (now : Instant) : CreateResult × Store :=
  match pytz_timezone tzName with
  | none => (.unhandledException "UnknownTimeZoneError", s)
  | some tz =>
    let startUtc := convert_to_utc inp.start_time tz
    let endUtc := convert_to_utc inp.end_time tz
    let fieldErrs := eventFieldErrors s now startUtc inp.name
    if fieldErrs ≠ [] then (.validationError fieldErrs, s)
    else if endUtc ≤ startUtc then (.validationError ["non_field_errors"], s)
    else
      let e : Event := ⟨nextEventId s, inp.name, inp.location, startUtc, endUtc,
        inp.max_capacity⟩
      (.created e, ⟨s.events ++ [e], s.attendees⟩)

/-- `EventModelViewSet.update`, translated branch for branch from
`views.py`.  Inside the `try` block:

1. `self.get_object()` resolves the instance through `get_queryset()`,
   which only contains events with `start_time >= now`; a miss raises
   `Http404`, which the blanket `except Exception` catches, rendering
   the generic 500 response.
2. On a hit, the view evaluates `serializer.data["start_time"]` before
   ever calling `is_valid()`.  DRF's `Serializer.data` property raises
   `AssertionError` whenever the serializer was given a `data=` argument
   and `is_valid()` has not run.  The blanket `except Exception` catches
   it and renders the same generic 500 response.

So every update request answers the generic 500 and the store is never
changed: `perform_update` is unreachable. -/
def updateEvent (s : Store) (eid : Nat) (_inp : EventInput) (_tzName : String)
    (now : Instant) : CreateResult × Store :=
  match (s.events.filter (fun e => now ≤ e.start_time)).find? (fun e => e.id == eid) with
  | none => (.serverError "An unexpected error occurred.", s)
  | some _ => (.serverError "An unexpected error occurred.", s)

/-- C5, counterexample to the claim as stated.  A create request with an
unrecognized `X-Timezone` header dies in `localize_input` — called
before the `try` block — with an uncaught `UnknownTimeZoneError`
(500-equivalent): it is not surfaced as a `ValidationError`, although
nothing is stored and there is no silent fallback either. -/
theorem C5_counterexample :
    pytz_timezone "Mars/Olympus" = none ∧
    createEvent ⟨[], []⟩ "Mars/Olympus" ⟨"AI Summit", "Bangalore", 200, 300, 150⟩ 0
      = (.unhandledException "UnknownTimeZoneError", ⟨[], []⟩) ∧
    (CreateResult.unhandledException "UnknownTimeZoneError").statusCode = 500 := by
  refine ⟨by decide, by decide, rfl⟩

/-- C5 as amended: an unrecognized timezone on the write path makes the
create request fail before validation with an uncaught
`UnknownTimeZoneError` — a 500-equivalent internal error, not a
`ValidationError` — and no event is stored, so there is in particular no
silent fallback to UTC. -/
theorem C5_invalid_timezone_write (s : Store) (tzName : String)
    (inp : EventInput) (now : Instant) (h : pytz_timezone tzName = none) :
    createEvent s tzName inp now
      = (.unhandledException "UnknownTimeZoneError", s) ∧
    (CreateResult.unhandledException "UnknownTimeZoneError").statusCode = 500 := by
  constructor
  · unfold createEvent
    rw [h]
  · rfl

/-- Witness for C5 as amended at a concrete unknown zone name. -/
theorem C5_invalid_timezone_write_witness :
    createEvent ⟨[], []⟩ "Not/AZone" ⟨"PyCon", "Pune", 100, 200, 2⟩ 0
      = (.unhandledException "UnknownTimeZoneError", ⟨[], []⟩) ∧
    (CreateResult.unhandledException "UnknownTimeZoneError").statusCode = 500 :=
  C5_invalid_timezone_write ⟨[], []⟩ "Not/AZone" ⟨"PyCon", "Pune", 100, 200, 2⟩ 0
    (by decide)

/-- C6: future-start validation.  Under a recognized zone, whenever the
normalized (UTC) start is not strictly after `now`, create answers a
`ValidationError` whose detail carries the `start_time` key, and the
store is unchanged. -/
theorem C6_future_start_rejected (s : Store) (tzName : String)
    (tz : SimpleTz) (inp : EventInput) (now : Instant)
    (htz : pytz_timezone tzName = some tz)
    (hstart : convert_to_utc inp.start_time tz ≤ now) :
    (createEvent s tzName inp now).1
      = .validationError
          (eventFieldErrors s now (convert_to_utc inp.start_time tz) inp.name) ∧
    "start_time" ∈ eventFieldErrors s now (convert_to_utc inp.start_time tz) inp.name ∧
    (createEvent s tzName inp now).2 = s := by
  have hmem : "start_time"
      ∈ eventFieldErrors s now (convert_to_utc inp.start_time tz) inp.name := by
    unfold eventFieldErrors
    rw [if_pos hstart]
    exact List.mem_append_left _ (List.mem_singleton_self _)
  have hne : eventFieldErrors s now (convert_to_utc inp.start_time tz) inp.name ≠ [] :=
    List.ne_nil_of_mem hmem
  have hcreate : createEvent s tzName inp now
      = (.validationError
          (eventFieldErrors s now (convert_to_utc inp.start_time tz) inp.name), s) := by
    unfold createEvent
    rw [htz]
    dsimp only
    rw [if_pos hne]
  exact ⟨by rw [hcreate], hmem, by rw [hcreate]⟩

/-- Witness for C6: a start instant at or before `now` (here before,
under UTC) is refused with a `start_time`-keyed error on an unchanged
store. -/
theorem C6_future_start_rejected_witness :
    (createEvent ⟨[], []⟩ "UTC" ⟨"PyCon", "Pune", -5, 100, 10⟩ 0).1
      = .validationError
          (eventFieldErrors ⟨[], []⟩ 0 (convert_to_utc (-5) ⟨0, 0, 0, 0⟩) "PyCon") ∧
    "start_time" ∈ eventFieldErrors ⟨[], []⟩ 0 (convert_to_utc (-5) ⟨0, 0, 0, 0⟩) "PyCon" ∧
    (createEvent ⟨[], []⟩ "UTC" ⟨"PyCon", "Pune", -5, 100, 10⟩ 0).2 = ⟨[], []⟩ :=
  C6_future_start_rejected ⟨[], []⟩ "UTC" ⟨0, 0, 0, 0⟩
    ⟨"PyCon", "Pune", -5, 100, 10⟩ 0 (by decide) (by decide)

/-- C7, counterexample to the claim as stated.  A create request with
`end_time <= start_time` fails with the object-level error that DRF
files under `non_field_errors` — not under an `end_time` key — and an
update request with the same body does not produce a `ValidationError`
at all: it answers the generic 500 (the view reads `serializer.data`
before `is_valid()`, raising `AssertionError` into the blanket
`except`). -/
theorem C7_counterexample :
    (createEvent ⟨[], []⟩ "UTC" ⟨"AI Summit", "Bangalore", 200, 100, 150⟩ 0).1
      = .validationError ["non_field_errors"] ∧
    ("end_time" ∈ (["non_field_errors"] : List String)) = False ∧
    updateEvent ⟨[⟨1, "AI Summit", "Bangalore", 200, 100, 150⟩], []⟩ 1
      ⟨"AI Summit", "Bangalore", 200, 100, 150⟩ "UTC" 0
      = (.serverError "An unexpected error occurred.",
         ⟨[⟨1, "AI Summit", "Bangalore", 200, 100, 150⟩], []⟩) := by
  refine ⟨by decide, by simp, by decide⟩

/-- C7 as amended: for `end_time <= start_time` (after normalization),
create fails with a `ValidationError` filed under `non_field_errors`
(provided the field-level checks pass — DRF only runs the object-level
`validate` then), with the store unchanged; update never runs the
ordering validation at all: every update request answers the generic 500
error with the store unchanged. -/
theorem C7_end_before_start :
    (∀ s tzName tz inp now, pytz_timezone tzName = some tz →
        eventFieldErrors s now (convert_to_utc inp.start_time tz) inp.name = [] →
        convert_to_utc inp.end_time tz ≤ convert_to_utc inp.start_time tz →
        createEvent s tzName inp now
          = (.validationError ["non_field_errors"], s)) ∧
    (∀ s eid inp tzName now,
        updateEvent s eid inp tzName now
          = (.serverError "An unexpected error occurred.", s)) ∧
    (CreateResult.validationError ["non_field_errors"]).statusCode = 400 ∧
    (CreateResult.serverError "An unexpected error occurred.").statusCode = 500 := by
  refine ⟨?_, ?_, rfl, rfl⟩
  · intro s tzName tz inp now htz hfields hend
    unfold createEvent
    rw [htz]
    dsimp only
    rw [if_neg (not_not_intro hfields), if_pos hend]
  · intro s eid inp tzName now
    unfold updateEvent
    cases (s.events.filter (fun e => now ≤ e.start_time)).find? (fun e => e.id == eid) with
    | none => rfl
    | some e => rfl

/-- Witness for C7 as amended at concrete inputs: an out-of-order pair
is refused by create with the `non_field_errors` detail, and a concrete
update request answers the generic 500 on an unchanged store. -/
theorem C7_end_before_start_witness :
    createEvent ⟨[], []⟩ "UTC" ⟨"AI Summit", "Bangalore", 200, 100, 150⟩ 0
      = (.validationError ["non_field_errors"], ⟨[], []⟩) ∧
    updateEvent ⟨[], []⟩ 7 ⟨"AI Summit", "Bangalore", 200, 100, 150⟩ "UTC" 0
      = (.serverError "An unexpected error occurred.", ⟨[], []⟩) :=
  ⟨C7_end_before_start.1 ⟨[], []⟩ "UTC" ⟨0, 0, 0, 0⟩
      ⟨"AI Summit", "Bangalore", 200, 100, 150⟩ 0
      (by decide) (by decide) (by decide),
   C7_end_before_start.2.1 ⟨[], []⟩ 7
      ⟨"AI Summit", "Bangalore", 200, 100, 150⟩ "UTC" 0⟩

/-- Listing order demanded by `Event.Meta.ordering = ('-id',)`: larger
ids first. -/
def byIdDesc (a b : Event) : Prop := b.id ≤ a.id

instance : DecidableRel byIdDesc := fun a b => Nat.decLe b.id a.id

instance : IsTotal Event byIdDesc := ⟨fun a b => Nat.le_total b.id a.id⟩

instance : IsTrans Event byIdDesc := ⟨fun _ _ _ hab hbc => Nat.le_trans hbc hab⟩

/-- The queryset the event list endpoint draws from:
`EventModelViewSet.get_queryset` filters
`Event.objects.filter(start_time__gte=now)` and the model Meta orders it
by id descending.  Pagination then windows this list without changing
membership or order. -/
def listUpcoming (s : Store) (now : Instant) : List Event :=
  List.insertionSort byIdDesc (s.events.filter (fun e => now ≤ e.start_time))

/-- `EventModelViewSet.retrieve` resolves the event with a bare
`Event.objects.get(id=pk)`, not through the filtered queryset, so past
events stay reachable here. -/
def retrieveEvent (s : Store) (eid : Nat) : Option Event :=
  findEvent s eid

/-- In a table of pairwise distinct ids, `find?` on an id returns
exactly the row carrying it. -/
theorem find_eq_of_mem_of_distinct (l : List Event) (ev : Event)
    (hpw : l.Pairwise (fun a b => a.id ≠ b.id)) (hmem : ev ∈ l) :
    l.find? (fun e => e.id == ev.id) = some ev := by
  induction l with
  | nil => cases hmem
  | cons x xs ih =>
    rw [List.pairwise_cons] at hpw
    rcases List.mem_cons.mp hmem with heq | hmem2
    · subst heq
      rw [List.find?_cons_of_pos _ (by simp)]
    · have hne : (x.id == ev.id) = false :=
        beq_eq_false_iff_ne.mpr (hpw.1 ev hmem2)
      rw [List.find?_cons_of_neg _ (by simp [hne]), ih hpw.2 hmem2]

/-- C8: the list endpoint yields exactly the events whose start is at or
after `now`, in descending id order; and any stored event — also one
whose start lies in the past and which the listing therefore omits —
stays retrievable by id (given the autoincrement guarantee that ids are
pairwise distinct). -/
theorem C8_list_upcoming :
    (∀ s now (e : Event),
        e ∈ listUpcoming s now ↔ e ∈ s.events ∧ now ≤ e.start_time) ∧
    (∀ s now, (listUpcoming s now).Pairwise byIdDesc) ∧
    (∀ s (ev : Event), s.events.Pairwise (fun a b => a.id ≠ b.id) →
        ev ∈ s.events → retrieveEvent s ev.id = some ev) := by
  refine ⟨?_, ?_, ?_⟩
  · intro s now e
    unfold listUpcoming
    rw [(List.perm_insertionSort byIdDesc _).mem_iff, List.mem_filter,
      decide_eq_true_iff]
  · intro s now
    exact List.sorted_insertionSort byIdDesc _
  · intro s ev hpw hmem
    unfold retrieveEvent findEvent
    exact find_eq_of_mem_of_distinct s.events ev hpw hmem

/-- Witness for C8 at a concrete store holding one past and one future
event: the past event is absent from the listing yet retrievable, the
future one is listed, and the listing is id-descending. -/
theorem C8_list_upcoming_witness :
    (⟨1, "Old", "Pune", -100, -50, 5⟩
        ∈ listUpcoming ⟨[⟨1, "Old", "Pune", -100, -50, 5⟩,
                         ⟨2, "New", "Pune", 50, 60, 5⟩], []⟩ 0
      ↔ ⟨1, "Old", "Pune", -100, -50, 5⟩
          ∈ ([⟨1, "Old", "Pune", -100, -50, 5⟩,
              ⟨2, "New", "Pune", 50, 60, 5⟩] : List Event)
        ∧ (0 : Instant) ≤ -100) ∧
    retrieveEvent ⟨[⟨1, "Old", "Pune", -100, -50, 5⟩,
                    ⟨2, "New", "Pune", 50, 60, 5⟩], []⟩ 1
      = some ⟨1, "Old", "Pune", -100, -50, 5⟩ :=
  ⟨C8_list_upcoming.1 ⟨[⟨1, "Old", "Pune", -100, -50, 5⟩,
        ⟨2, "New", "Pune", 50, 60, 5⟩], []⟩ 0 ⟨1, "Old", "Pune", -100, -50, 5⟩,
   C8_list_upcoming.2.2 ⟨[⟨1, "Old", "Pune", -100, -50, 5⟩,
        ⟨2, "New", "Pune", 50, 60, 5⟩], []⟩ ⟨1, "Old", "Pune", -100, -50, 5⟩
     (by decide) (by decide)⟩

/-- C9: the display path is lenient.  For every stored UTC instant and
every zone name whose lookup fails, the conversion is the one the UTC
fallback gives — the same value the recognized name "UTC" yields, namely
the instant itself — so a malformed `X-Timezone` header never fails a
read: `displayInstant` is a total function and takes the guarded
fallback branch. -/
theorem C9_display_fallback (u : Instant) (name : String)
    (h : pytz_timezone name = none) :
    displayInstant u name = displayInstant u "UTC" ∧
    displayInstant u "UTC" = u := by
  have hUTC : displayInstant u "UTC" = u := by
    show u + (if (0 : Int) ≤ u ∧ u < 0 then (0 : Int) else 0) = u
    rw [ite_self, add_zero]
  refine ⟨?_, hUTC⟩
  unfold displayInstant displayTz
  rw [h]
  rfl

/-- Witness for C9 at a concrete unknown zone name and instant. -/
theorem C9_display_fallback_witness :
    displayInstant 424242 "Not/AZone" = displayInstant 424242 "UTC" ∧
    displayInstant 424242 "UTC" = 424242 :=
  C9_display_fallback 424242 "Not/AZone" (by decide)

/-- A JSON-ish value of a serialized event dictionary: a text field, a
numeric field, or a datetime field (given as the UTC instant its ISO
string denotes). -/
inductive JVal where
  | text (v : String)
  | num (v : Int)
  | dt (v : Instant)
deriving Repr, DecidableEq

/-- One entry of the dictionary under `modify_datetime_format`: the
function reassigns `event_data["start_time"]` and
`event_data["end_time"]` through `convert_datetime` and touches no
other key. -/
def convertEntry (tzName : String) (kv : String × JVal) : String × JVal :=
  if kv.1 = "start_time" ∨ kv.1 = "end_time" then
    match kv.2 with
    | .dt v => (kv.1, .dt (displayInstant v tzName))
    | v => (kv.1, v)
  else kv

/-- `utils.modify_datetime_format` on one serialized event
(`is_list=False`): the two datetime keys are rewritten in place, every
other entry is returned as it came. -/
def modify_datetime_format (tzName : String) (d : List (String × JVal)) :
    List (String × JVal) :=
  d.map (convertEntry tzName)

/-- `utils.modify_datetime_format` with `is_list=True`: the same
rewriting applied to each serialized event of the page. -/
def modify_datetime_format_many (tzName : String)
    (ds : List (List (String × JVal))) : List (List (String × JVal)) :=
  ds.map (modify_datetime_format tzName)

/-- `convertEntry` never renames a key. -/
theorem convertEntry_fst (tzName : String) (kv : String × JVal) :
    (convertEntry tzName kv).1 = kv.1 := by
  unfold convertEntry
  by_cases h : kv.1 = "start_time" ∨ kv.1 = "end_time"
  · rw [if_pos h]
    cases kv.2 <;> rfl
  · rw [if_neg h]

/-- `convertEntry` is the identity away from the two datetime keys. -/
theorem convertEntry_of_other (tzName : String) (kv : String × JVal)
    (h1 : kv.1 ≠ "start_time") (h2 : kv.1 ≠ "end_time") :
    convertEntry tzName kv = kv := by
  unfold convertEntry
  rw [if_neg]
  rintro (h | h)
  · exact h1 h
  · exact h2 h

/-- Looking any key other than the two datetime keys up is unchanged by
the display formatting of one dictionary. -/
theorem lookup_modify_datetime_format (tzName : String)
    (d : List (String × JVal)) (k : String)
    (h1 : k ≠ "start_time") (h2 : k ≠ "end_time") :
    (modify_datetime_format tzName d).lookup k = d.lookup k := by
  induction d with
  | nil => rfl
  | cons kv rest ih =>
    obtain ⟨k2, v⟩ := kv
    show List.lookup k (convertEntry tzName (k2, v) :: modify_datetime_format tzName rest)
        = List.lookup k ((k2, v) :: rest)
    by_cases heq : k = k2
    · subst heq
      rw [convertEntry_of_other tzName (k, v) h1 h2]
      simp [List.lookup]
    · have hne : (k == k2) = false := beq_eq_false_iff_ne.mpr heq
      have hne2 : (k == (convertEntry tzName (k2, v)).1) = false := by
        rw [convertEntry_fst]
        exact hne
      rcases hc : convertEntry tzName (k2, v) with ⟨k3, v3⟩
      have hk3 : k3 = k2 := by
        have := convertEntry_fst tzName (k2, v)
        rw [hc] at this
        exact this
      subst hk3
      simp [List.lookup, hne, ih]

/-- C10: frame property of the display formatting.  On one serialized
event the keys are preserved and every key other than `start_time` and
`end_time` keeps its value; on a list of serialized events the same
holds entrywise. -/
theorem C10_frame_effect :
    (∀ tzName (d : List (String × JVal)),
        (modify_datetime_format tzName d).map Prod.fst = d.map Prod.fst) ∧
    (∀ tzName (d : List (String × JVal)) (k : String),
        k ≠ "start_time" → k ≠ "end_time" →
        (modify_datetime_format tzName d).lookup k = d.lookup k) ∧
    (∀ tzName (ds : List (List (String × JVal))) (k : String),
        k ≠ "start_time" → k ≠ "end_time" →
        (modify_datetime_format_many tzName ds).map (fun d => d.lookup k)
          = ds.map (fun d => d.lookup k)) := by
  refine ⟨?_, ?_, ?_⟩
  · intro tzName d
    unfold modify_datetime_format
    rw [List.map_map]
    exact List.map_congr_left (fun kv _ => convertEntry_fst tzName kv)
  · intro tzName d k h1 h2
    exact lookup_modify_datetime_format tzName d k h1 h2
  · intro tzName ds k h1 h2
    unfold modify_datetime_format_many
    rw [List.map_map]
    exact List.map_congr_left
      (fun d _ => lookup_modify_datetime_format tzName d k h1 h2)

/-- Witness for C10 on a concrete serialized event: the `id`, `name`,
`location` and `max_capacity` entries survive the formatting unchanged. -/
theorem C10_frame_effect_witness :
    (modify_datetime_format "Asia/Kolkata"
        [("id", .num 1), ("name", .text "PyCon"), ("location", .text "Pune"),
         ("start_time", .dt 100), ("end_time", .dt 200),
         ("max_capacity", .num 2)]).lookup "name"
      = ([("id", JVal.num 1), ("name", .text "PyCon"), ("location", .text "Pune"),
          ("start_time", .dt 100), ("end_time", .dt 200),
          ("max_capacity", .num 2)] : List (String × JVal)).lookup "name" :=
  C10_frame_effect.2.1 "Asia/Kolkata"
    [("id", .num 1), ("name", .text "PyCon"), ("location", .text "Pune"),
     ("start_time", .dt 100), ("end_time", .dt 200), ("max_capacity", .num 2)]
    "name" (by decide) (by decide)
